import Mathlib

/-!
Shallow embedding of the Oromo-to-English Telegram bot (src/bot.py) and a
verification of the spec claims about its conversation state machine,
history ledger, translation-record store, rating-callback codec, and
feedback sink.

Modelling conventions:
- `context.user_data` (a Python dict) becomes the `Bot.UserData` structure;
  keys that may be absent (`translation_history`, `translation_records`,
  `source_lang`, `target_lang`) are `Option`-valued, `none` meaning the key
  is missing; every read site in bot.py goes through `dict.get(key, default)`
  or `dict.setdefault(key, default)`, which we render as `Option.getD`.
- Python dicts preserve insertion order, so `translation_records` is an
  association list: assignment of a fresh key appends at the end,
  `next(iter(d))` is the head, `d.pop(first_key)` drops the head.
- External collaborators (Google translate client, Telegram send or answer
  calls, the feedback file) are parameters: the translator is a function
  returning `Except Unit String`, the feedback-file write outcome is a
  `Bool` flag, and user-visible sends are collected in the returned values.
- Nondeterministic inputs (`uuid.uuid4()`, `datetime.now()`) are parameters.
- Python string primitives used by bot.py (`str.split` with a one-character
  separator, `str.strip`, `str.replace`, `x or default`, `l[-n:]`) are
  modelled by the `pySplit`, `pyStrip`, `pyReplace`, `pyOrDefault`,
  `pyLastN` functions below, with the same semantics on the inputs in use.
-/

set_option linter.unusedVariables false
set_option maxRecDepth 20000

namespace Bot

/-- Model of Python `s.split(sep)` for a one-character separator, on the
character list: `"" → [""]`, separators delimit possibly empty fields. -/
def splitChar (sep : Char) : List Char → List (List Char)
  | [] => [[]]
  | c :: rest =>
    if c = sep then
      [] :: splitChar sep rest
    else
      match splitChar sep rest with
      | [] => [[c]]
      | w :: ws => (c :: w) :: ws

/-- Model of Python `s.split(sep)` for a one-character separator. -/
def pySplit (s : String) (sep : Char) : List String :=
  (splitChar sep s.toList).map List.asString

/-- Model of Python `s.strip()`: remove leading and trailing whitespace. -/
def pyStrip (s : String) : String :=
  List.asString
    (((s.toList.dropWhile Char.isWhitespace).reverse.dropWhile Char.isWhitespace).reverse)

/-- Fuel-driven worker for `pyReplace`; the fuel is the length of the
input, which bounds the number of replacement steps. -/
def pyReplaceAux (pat repl : List Char) : Nat → List Char → List Char
  | _, [] => []
  | 0, l => l
  | fuel + 1, c :: rest =>
    if pat ≠ [] ∧ pat.isPrefixOf (c :: rest) then
      repl ++ pyReplaceAux pat repl fuel ((c :: rest).drop pat.length)
    else
      c :: pyReplaceAux pat repl fuel rest

/-- Model of Python `s.replace(pat, repl)` for a non-empty pattern:
replace non-overlapping occurrences left to right. -/
def pyReplace (s pat repl : String) : String :=
  List.asString (pyReplaceAux pat.toList repl.toList s.toList.length s.toList)

/-- Model of Python `x or default` for an optional string: `None` and the
empty string are falsy. -/
def pyOrDefault (s : Option String) (d : String) : String :=
  match s with
  | none => d
  | some v => if v = "" then d else v

/-- Model of Python `l[-n:]`: the last `n` elements (all of them when the
list is shorter). -/
def pyLastN (n : Nat) (l : List α) : List α :=
  l.drop (l.length - n)

/-- Lookup in an insertion-ordered dict rendered as an association list
(Python `d.get(k)` / `d[k]`). -/
def dictGet [DecidableEq κ] (d : List (κ × β)) (k : κ) : Option β :=
  match d with
  | [] => none
  | (k2, v) :: rest => if k2 = k then some v else dictGet rest k

/-- Assignment `d[k] = v` on an insertion-ordered dict: replace in place if
the key is present, otherwise append at the end (Python 3.7+ dicts keep
insertion order). -/
def dictInsert [DecidableEq κ] (d : List (κ × β)) (k : κ) (v : β) : List (κ × β) :=
  match dictGet d k with
  | some _ => d.map (fun p => if p.1 = k then (k, v) else p)
  | none => d ++ [(k, v)]

/-- Model of `d.pop(next(iter(d)))`: remove the entry carrying the first
(oldest-inserted) key. On an association list with unique keys this is the
tail; we remove the first entry whose key equals the head key. -/
def dictPopFirst [DecidableEq κ] (d : List (κ × β)) : List (κ × β) :=
  match d with
  | [] => []
  | (k, v) :: rest => List.eraseP (fun p => decide (p.1 = k)) ((k, v) :: rest)

/-- The four conversation states stored under `context.user_data["state"]`
in bot.py (the spec names them MenuChoice, AwaitingText, TutorialMenuChoice,
TutorialAwaitingText). -/
inductive BotState where
  | awaiting_menu_choice
  | tutorial_menu_choice
  | awaiting_text
  | tutorial_awaiting_text
deriving DecidableEq, Repr

/-- One history entry, as appended at bot.py lines 160-166 and 221-236. -/
structure HistoryEntry where
  source_lang : String
  target_lang : String
  original_text : String
  translated_text : String
  timestamp : String
deriving DecidableEq, Repr

/-- One stored translation record, as inserted at bot.py lines 171-176 and
242-253. -/
structure TranslationRecord where
  original_text : String
  translated_text : String
  source_lang : String
  target_lang : String
deriving DecidableEq, Repr

/-- The per-user `context.user_data` dict. `none` models an absent key.
The `state` key is read only through `get("state", "awaiting_menu_choice")`,
so an absent state key is observationally the default and we store the
state directly. -/
structure UserData where
  state : BotState
  source_lang : Option String
  target_lang : Option String
  translation_history : Option (List HistoryEntry)
  translation_records : Option (List (String × TranslationRecord))
deriving DecidableEq, Repr

/-- bot.py line 58. -/
def HISTORY_LIMIT : Nat := 5

/-- bot.py lines 42-45: `SUPPORTED_LANGUAGES[code]`, `none` modelling a
KeyError on any other key. -/
def SUPPORTED_LANGUAGES (code : String) : Option String :=
  if code = "om" then some "Afaan Oromo"
  else if code = "en" then some "English"
  else none

/-- Menu button labels, bot.py lines 48-52. -/
def MENU_OM_EN : String := "🌐 Afaan Oromo to English"

def MENU_EN_OM : String := "🌐 English to Afaan Oromo"

def MENU_RESTART : String := "🔄 Restart (/start)"

def MENU_HELP : String := "📚 Help (/help)"

def MENU_HISTORY : String := "🕰️ History (/history)"

/-- Welcome text sent by `start`, bot.py lines 62-69. -/
def welcome_message : String :=
  "🌍 *Afaan Oromo - English Translator Bot* 🌍\n\n" ++
  "Welcome! This bot translates between Afaan Oromo and English. Choose an option below:\n\n" ++
  "- 🌐 Translate using menu or inline mode (@YourBot <text>)\n" ++
  "- 📚 Get help with /help\n" ++
  "- 🕰️ View recent translations with /history\n\n" ++
  "Select an option:"

/-- Help text sent by `help_command`, bot.py lines 78-87. -/
def help_message : String :=
  "📚 *Afaan Oromo - English Translator Bot Help* 📚\n\n" ++
  "This bot translates between Afaan Oromo and English:\n" ++
  "- 🌐 *Menu Mode*: Use /start, choose an option, enter text.\n" ++
  "- 🚀 *Inline Mode*: Type @YourBot <text> (e.g., @YourBot Salaam).\n" ++
  "- 👍 *Rate Translations*: Click thumbs up or down after translations.\n" ++
  "- 🕰️ *History*: Use /history to view your last 5 translations.\n" ++
  "- 📚 *Help*: Use /help to see this message.\n\n" ++
  "Try a tutorial! Select a translation option:"

/-- Tutorial follow-up sent after a tutorial translation, bot.py lines 188-195. -/
def tutorial_message : String :=
  "🎉 *Great!* You translated a word. Now try these:\n" ++
  "- 👍 Rate the translation using thumbs up or down.\n" ++
  "- 🕰️ Use /history to see your recent translations.\n" ++
  "- 🚀 Try inline mode by typing @YourBot Salaam in any chat.\n" ++
  "- 🔄 Use /start to return to the menu.\n\n" ++
  "📚 *Tutorial complete!* Use /help to repeat this guide."

/-- Prompt for the Oromo-to-English direction, bot.py lines 118-120. -/
def promptOmEn (is_tutorial : Bool) : String :=
  "🌐 Enter a word or sentence to translate from Afaan Oromo to English (e.g., \x27Salaam\x27):" ++
  (if is_tutorial then "\n\n📚 *Tutorial*: Try a word like \x27Salaam\x27 to see how it works!" else "")

/-- Prompt for the English-to-Oromo direction, bot.py lines 126-128. -/
def promptEnOm (is_tutorial : Bool) : String :=
  "🌐 Enter a word or sentence to translate from English to Afaan Oromo (e.g., \x27Hello\x27):" ++
  (if is_tutorial then "\n\n📚 *Tutorial*: Try a word like \x27Hello\x27 to see how it works!" else "")

/-- bot.py line 150. -/
def EMPTY_INPUT_MSG : String := "❌ Please enter a non-empty word or sentence to translate."

/-- bot.py line 200. -/
def TRANSLATION_ERROR_MSG : String := "❌ An error occurred during translation. Please try again."

/-- bot.py line 203. -/
def SELECT_OPTION_MSG : String := "🌍 Please select a translation option:"

/-- bot.py line 139. -/
def INVALID_OPTION_MSG : String := "❌ Please select a valid option from the menu:"

/-- bot.py line 96. -/
def NO_TRANSLATIONS_MSG : String := "🕰️ No translations yet. Try translating something first!"

/-- bot.py line 328. -/
def RATING_ERROR_MSG : String := "Error processing your rating."

/-- The history update of bot.py lines 160-167: append the entry, then keep
only the last `HISTORY_LIMIT` entries (`history[-HISTORY_LIMIT:]`). -/
def historyAppend (h : List HistoryEntry) (e : HistoryEntry) : List HistoryEntry :=
  pyLastN HISTORY_LIMIT (h ++ [e])

/-- The callback token built for the rating buttons, bot.py lines 180-181
(also 266-267 and 281-282): the f-string
`rate_RATING_SOURCE_TARGET_ID_0`. -/
def encodeCallback (ratingTag source_lang target_lang translation_id : String) : String :=
  "rate_" ++ ratingTag ++ "_" ++ source_lang ++ "_" ++ target_lang ++ "_" ++ translation_id ++ "_0"

/-- The two named failures raised as ValueError in `handle_rating`:
line 301 (`Invalid callback_data format`) and line 308 (`Translation not
found`). -/
inductive RatingError where
  | malformedToken
  | recordNotFound
deriving DecidableEq, Repr

/-- The token-parsing half of `handle_rating`, bot.py lines 299-302:
split on the underscore, require exactly five fields, and unpack the first
four (the fifth is discarded). -/
def decodeCallback (data : String) :
    Except RatingError (String × String × String × String) :=
  let parts := pySplit data '_'
  if parts.length = 5 then
    match parts with
    | [rating, source_lang, target_lang, translation_id, _x] =>
      Except.ok (rating, source_lang, target_lang, translation_id)
    | _ => Except.error RatingError.malformedToken
  else
    Except.error RatingError.malformedToken

/-- The `start` handler, bot.py lines 60-74: send the welcome message, set
the state to the menu state, and create an empty history only when the
`translation_history` key is absent. -/
def start (ud : UserData) : UserData × List String :=
  ({ ud with
      state := BotState.awaiting_menu_choice,
      translation_history := some (ud.translation_history.getD []) },
   [welcome_message])

/-- The `help_command` handler, bot.py lines 76-90. -/
def help_command (ud : UserData) : UserData × List String :=
  ({ ud with state := BotState.tutorial_menu_choice }, [help_message])

/-- The body of the loop in the `history` handler, bot.py lines 100-105.
The `SUPPORTED_LANGUAGES` lookups cannot fail on entries produced by the
handlers (they always store the codes om and en), so the `getD ""` default
is never taken on reachable histories. -/
def historyLines : Nat → List HistoryEntry → String
  | _, [] => ""
  | idx, e :: rest =>
    toString idx ++ ". *Original* (" ++ (SUPPORTED_LANGUAGES e.source_lang).getD "" ++ "): " ++
      e.original_text ++ "\n" ++
    "   *Translated* (" ++ (SUPPORTED_LANGUAGES e.target_lang).getD "" ++ "): " ++
      e.translated_text ++ "\n" ++
    "   *Time*: " ++ e.timestamp ++ "\n\n" ++
    historyLines (idx + 1) rest

/-- The `history` handler, bot.py lines 92-106: report the stored history,
never mutating the session. -/
def history (ud : UserData) : UserData × List String :=
  match ud.translation_history.getD [] with
  | [] => (ud, [NO_TRANSLATIONS_MSG])
  | h => (ud, ["🕰️ *Your Recent Translations (up to 5)*:\n\n" ++ historyLines 1 h])

/-- The `try` block of `handle_message` for the text-capture states,
bot.py lines 153-200: call the translator; on success build the result
text (the `SUPPORTED_LANGUAGES[...]` lookups raise KeyError on a missing
or unsupported language, which the `except` turns into the generic error
message), append to the history, store a fresh translation record, and
reply (plus the tutorial follow-up in tutorial mode); on any failure reply
with the generic error message and mutate nothing. -/
def tryTranslate (ud : UserData) (text : String) (is_tutorial : Bool)
    (translate : Option String → Option String → String → Except Unit String)
    (translation_id timestamp : String) : UserData × List String :=
  match translate ud.source_lang ud.target_lang text with
  | Except.error _ => (ud, [TRANSLATION_ERROR_MSG])
  | Except.ok translated_text =>
    match ud.source_lang, ud.target_lang with
    | some sl, some tl =>
      match SUPPORTED_LANGUAGES sl, SUPPORTED_LANGUAGES tl with
      | some srcName, some tgtName =>
        let result_text :=
          "*Original* (" ++ srcName ++ "): " ++ text ++ "\n" ++
          "*Translated* (" ++ tgtName ++ "): " ++ translated_text
        let entry : HistoryEntry :=
          { source_lang := sl, target_lang := tl, original_text := text,
            translated_text := translated_text, timestamp := timestamp }
        let history2 := historyAppend (ud.translation_history.getD []) entry
        let records2 := dictInsert (ud.translation_records.getD []) translation_id
          { original_text := text, translated_text := translated_text,
            source_lang := sl, target_lang := tl }
        ({ ud with
            translation_history := some history2,
            translation_records := some records2 },
         [result_text] ++ (if is_tutorial then [tutorial_message] else []))
      | _, _ => (ud, [TRANSLATION_ERROR_MSG])
    | _, _ => (ud, [TRANSLATION_ERROR_MSG])

/-- The menu branch of `handle_message`, bot.py lines 113-142. -/
def menuStep (ud : UserData) (text : String) (is_tutorial : Bool) : UserData × List String :=
  if text = MENU_OM_EN then
    ({ ud with
        source_lang := some "om", target_lang := some "en",
        state := if is_tutorial then BotState.tutorial_awaiting_text else BotState.awaiting_text },
     [promptOmEn is_tutorial])
  else if text = MENU_EN_OM then
    ({ ud with
        source_lang := some "en", target_lang := some "om",
        state := if is_tutorial then BotState.tutorial_awaiting_text else BotState.awaiting_text },
     [promptEnOm is_tutorial])
  else if text = MENU_RESTART then
    start ud
  else if text = MENU_HELP then
    help_command ud
  else if text = MENU_HISTORY then
    history ud
  else
    ({ ud with state := BotState.awaiting_menu_choice }, [INVALID_OPTION_MSG])

/-- The text-capture branch of `handle_message`, bot.py lines 143-208:
empty (stripped) input replies with the non-empty prompt and returns with
nothing mutated; otherwise run the translation block and then, success or
failure, re-show the menu, reset the state to the menu state, and pop the
pending language pair. -/
def textStep (ud : UserData) (text : String) (is_tutorial : Bool)
    (translate : Option String → Option String → String → Except Unit String)
    (translation_id timestamp : String) : UserData × List String :=
  if text = "" then
    (ud, [EMPTY_INPUT_MSG])
  else
    let step := tryTranslate ud text is_tutorial translate translation_id timestamp
    ({ step.1 with
        state := BotState.awaiting_menu_choice,
        source_lang := none, target_lang := none },
     step.2 ++ [SELECT_OPTION_MSG])

/-- The `handle_message` handler, bot.py lines 108-208: strip the incoming
text, then dispatch on the current state (`get("state",
"awaiting_menu_choice")` makes the menu state the default). -/
def handle_message (ud : UserData) (messageText : String)
    (translate : Option String → Option String → String → Except Unit String)
    (translation_id timestamp : String) : UserData × List String :=
  let user_text := pyStrip messageText
  match ud.state with
  | BotState.awaiting_menu_choice => menuStep ud user_text false
  | BotState.tutorial_menu_choice => menuStep ud user_text true
  | BotState.awaiting_text => textStep ud user_text false translate translation_id timestamp
  | BotState.tutorial_awaiting_text => textStep ud user_text true translate translation_id timestamp

/-- The `inline_query` handler, bot.py lines 210-289: strip the query and
return untouched when it is empty; otherwise translate in both directions,
extend the history with the om-to-en entry then the en-to-om entry and keep
the last five, store two fresh records, and answer the query (the returned
flag). Any translator failure is caught, logged, and mutates nothing. -/
def inline_query (ud : UserData) (rawQuery : String)
    (translate : Option String → Option String → String → Except Unit String)
    (translation_id_om translation_id_en timestamp : String) : UserData × Bool :=
  let query := pyStrip rawQuery
  if query = "" then
    (ud, false)
  else
    match translate (some "om") (some "en") query, translate (some "en") (some "om") query with
    | Except.ok om_to_en, Except.ok en_to_om =>
      let history2 := pyLastN HISTORY_LIMIT
        (ud.translation_history.getD [] ++
          [{ source_lang := "om", target_lang := "en", original_text := query,
             translated_text := om_to_en, timestamp := timestamp },
           { source_lang := "en", target_lang := "om", original_text := query,
             translated_text := en_to_om, timestamp := timestamp }])
      let records2 := dictInsert
        (dictInsert (ud.translation_records.getD []) translation_id_om
          { original_text := query, translated_text := om_to_en,
            source_lang := "om", target_lang := "en" })
        translation_id_en
        { original_text := query, translated_text := en_to_om,
          source_lang := "en", target_lang := "om" }
      ({ ud with
          translation_history := some history2,
          translation_records := some records2 },
       true)
    | _, _ => (ud, false)

/-- The feedback line written to FEEDBACK_FILE, bot.py line 313. -/
def feedbackLine (username : Option String) (user_id : Nat)
    (rating source_lang target_lang : String) (translation : TranslationRecord) : String :=
  "User: " ++ pyOrDefault username "Unknown" ++ " (ID: " ++ toString user_id ++
  "), Rating: " ++ rating ++ ", Source: " ++ source_lang ++ ", Target: " ++ target_lang ++
  ", Original: " ++ translation.original_text ++
  ", Translated: " ++ translation.translated_text ++ "\n"

/-- Observable outcome of one `handle_rating` call: the resulting session,
the ValueError logged by the outer `except` (if any), the toast sent with
`query.answer`, the edited message text (if the edit was reached), the
feedback line appended to FEEDBACK_FILE (if the write succeeded), and
whether a feedback-write failure was logged. -/
structure RatingOutcome where
  data : UserData
  error : Option RatingError
  answer : String
  editedMessage : Option String
  feedbackWritten : Option String
  writeFailureLogged : Bool
deriving DecidableEq, Repr

/-- The `handle_rating` handler, bot.py lines 291-328. `writeOk` is the
outcome of the `open(FEEDBACK_FILE, "a")` append: when it is false the
OSError is logged and swallowed (lines 314-318) and the handler continues.
A decode failure or a missing record raises ValueError, which the outer
`except` answers with the generic rating-error toast without touching the
session. After a successful rating, if more than 100 records are stored the
oldest-inserted one is popped (lines 323-325). -/
def handle_rating (ud : UserData) (data : String) (user_id : Nat)
    (username : Option String) (origMessage : String) (writeOk : Bool) : RatingOutcome :=
  match decodeCallback data with
  | Except.error e =>
    { data := ud, error := some e, answer := RATING_ERROR_MSG,
      editedMessage := none, feedbackWritten := none, writeFailureLogged := false }
  | Except.ok (rating, source_lang, target_lang, translation_id) =>
    let translations := ud.translation_records.getD []
    match dictGet translations translation_id with
    | none =>
      { data := ud, error := some RatingError.recordNotFound, answer := RATING_ERROR_MSG,
        editedMessage := none, feedbackWritten := none, writeFailureLogged := false }
    | some translation =>
      let feedback := feedbackLine username user_id rating source_lang target_lang translation
      let label := pyReplace rating "rate_" ""
      let translations2 :=
        if translations.length > 100 then dictPopFirst translations else translations
      { data := { ud with translation_records := some translations2 },
        error := none,
        answer := "Thank you for your " ++ label ++ " rating!",
        editedMessage := some (origMessage ++ "\n\n*Rated*: " ++ label),
        feedbackWritten := if writeOk then some feedback else none,
        writeFailureLogged := !writeOk }

end Bot

namespace Bot

/-- A translator collaborator that always succeeds, echoing the input text. -/
def okTranslate : Option String → Option String → String → Except Unit String :=
  fun _ _ text => Except.ok text

/-- A translator collaborator that always raises. -/
def failTranslate : Option String → Option String → String → Except Unit String :=
  fun _ _ _ => Except.error ()

/-- A sample stored translation record. -/
def exampleRecord : TranslationRecord :=
  { original_text := "Salaam", translated_text := "Hello",
    source_lang := "om", target_lang := "en" }

/-- A sample history entry. -/
def exampleEntry : HistoryEntry :=
  { source_lang := "om", target_lang := "en", original_text := "Salaam",
    translated_text := "Hello", timestamp := "2025-01-01 00:00:00" }

/-- A sample generated record ID (the uuid4 shape used by bot.py). -/
def exampleId : String := "3fa85f64-5717-4562-b3fc-2c963f66afa6"

/-- A session whose record store holds `exampleRecord` under `exampleId`. -/
def sessionWithExampleRecord : UserData :=
  { state := BotState.awaiting_menu_choice, source_lang := none, target_lang := none,
    translation_history := none,
    translation_records := some [(exampleId, exampleRecord)] }

/-- An empty fresh session. -/
def emptySession : UserData :=
  { state := BotState.awaiting_menu_choice, source_lang := none, target_lang := none,
    translation_history := none, translation_records := none }

theorem decodeCallback_malformed (data : String)
    (h : (pySplit data '_').length ≠ 5) :
    decodeCallback data = Except.error RatingError.malformedToken := by
  simp only [decodeCallback]
  rw [if_neg h]

theorem decodeCallback_ok (data r s t i x : String)
    (h : pySplit data '_' = [r, s, t, i, x]) :
    decodeCallback data = Except.ok (r, s, t, i) := by
  simp only [decodeCallback, h]
  rw [if_pos (by simp)]

/-- C1: the codec round-trip fails on every valid tuple: the encoder emits a
six-field token (the literal `rate` prefix, the tag, the two language codes,
the record ID, and the trailing `0`), while the decoder demands exactly five
fields, so decoding an encoded token raises the malformed-token ValueError
instead of returning the tuple; `handle_rating` therefore rejects its own
buttons even when the referenced record is in the store. -/
theorem c1_codec_roundtrip_fails :
    (pySplit (encodeCallback "good" "om" "en" exampleId) '_').length = 6
    ∧ decodeCallback (encodeCallback "good" "om" "en" exampleId)
        = Except.error RatingError.malformedToken
    ∧ decodeCallback (encodeCallback "poor" "en" "om" exampleId)
        = Except.error RatingError.malformedToken
    ∧ (handle_rating sessionWithExampleRecord (encodeCallback "good" "om" "en" exampleId)
        1 none "msg" true).error = some RatingError.malformedToken
    ∧ (handle_rating sessionWithExampleRecord (encodeCallback "good" "om" "en" exampleId)
        1 none "msg" true).feedbackWritten = none := by
  refine ⟨rfl, rfl, rfl, rfl, rfl⟩

/-- C2: a token that does not split into exactly five underscore-separated
fields fails with the malformed-token ValueError, a named failure distinct
from the record-not-found ValueError raised when a five-field token names a
record absent from the store; in both cases the session is untouched and no
feedback is written, and the two logged conditions differ. -/
theorem c2_malformed_distinct_from_notfound (ud : UserData) (data : String)
    (uid : Nat) (un : Option String) (msg : String) (w : Bool) :
    ((pySplit data '_').length ≠ 5 →
      handle_rating ud data uid un msg w =
        { data := ud, error := some RatingError.malformedToken,
          answer := RATING_ERROR_MSG, editedMessage := none,
          feedbackWritten := none, writeFailureLogged := false })
    ∧ (∀ r s t i x, pySplit data '_' = [r, s, t, i, x] →
        dictGet (ud.translation_records.getD []) i = none →
        handle_rating ud data uid un msg w =
          { data := ud, error := some RatingError.recordNotFound,
            answer := RATING_ERROR_MSG, editedMessage := none,
            feedbackWritten := none, writeFailureLogged := false })
    ∧ RatingError.malformedToken ≠ RatingError.recordNotFound := by
  refine ⟨?_, ?_, by decide⟩
  · intro h
    rw [handle_rating, decodeCallback_malformed data h]
  · intro r s t i x hsplit hget
    rw [handle_rating, decodeCallback_ok data r s t i x hsplit]
    simp only [hget]

/-- Witness for C2: a six-field token is rejected as malformed, and a
five-field token naming an absent record is rejected as not found. -/
theorem c2_witness :
    (handle_rating emptySession "rate_good_om_en_abc_0" 1 none "msg" true).error
      = some RatingError.malformedToken
    ∧ (handle_rating emptySession "rate_good_om_abc_0" 1 none "msg" true).error
      = some RatingError.recordNotFound := by
  constructor
  · rw [(c2_malformed_distinct_from_notfound emptySession "rate_good_om_en_abc_0"
      1 none "msg" true).1 (by decide)]
  · rw [(c2_malformed_distinct_from_notfound emptySession "rate_good_om_abc_0"
      1 none "msg" true).2.1 "rate" "good" "om" "abc" "0" (by decide) (by decide)]

end Bot

namespace Bot

/-- Removing the first entry of a non-empty store drops exactly the head. -/
theorem dictPopFirst_cons [DecidableEq κ] (k : κ) (v : β) (rest : List (κ × β)) :
    dictPopFirst ((k, v) :: rest) = rest := by
  simp [dictPopFirst, List.eraseP_cons]

/-- The record-store cleanup of bot.py lines 323-325: after a successful
rating, pop the oldest-inserted record when more than 100 are stored. -/
def storeAfterRatingCleanup (d : List (String × TranslationRecord)) :
    List (String × TranslationRecord) :=
  if d.length > 100 then dictPopFirst d else d

/-- Reduction of `handle_rating` when the token has five fields and the
record is found: the rating succeeds, the confirmation toast and the edit
are produced, the feedback line is appended exactly when the file write
succeeds, and the store loses its oldest entry exactly when it exceeds 100
records. -/
theorem handle_rating_found_eq (ud : UserData) (data : String) (uid : Nat)
    (un : Option String) (msg : String) (w : Bool) (r s t i x : String)
    (rec : TranslationRecord)
    (hsplit : pySplit data '_' = [r, s, t, i, x])
    (hfound : dictGet (ud.translation_records.getD []) i = some rec) :
    handle_rating ud data uid un msg w =
      { data := { ud with translation_records := some (storeAfterRatingCleanup (ud.translation_records.getD [])) },
        error := none,
        answer := "Thank you for your " ++ pyReplace r "rate_" "" ++ " rating!",
        editedMessage := some (msg ++ "\n\n*Rated*: " ++ pyReplace r "rate_" ""),
        feedbackWritten := if w then some (feedbackLine un uid r s t rec) else none,
        writeFailureLogged := !w } := by
  rw [handle_rating, decodeCallback_ok data r s t i x hsplit]
  simp only [hfound, storeAfterRatingCleanup]

/-- The session produced by `n` completed menu-flow translations from a
fresh session: each round selects the Oromo-to-English direction and then
submits the text Salaam with a translator that succeeds; round `i` stores
its record under the generated ID `toString i`. -/
def sessionAfter (n : Nat) : UserData :=
  (List.range n).foldl
    (fun ud i =>
      let ud1 := (handle_message ud MENU_OM_EN okTranslate "" "").1
      (handle_message ud1 "Salaam" okTranslate (toString i) "t").1)
    emptySession

/-- C3 counterexample: after 101 record insertions through the message
handler the store holds 101 entries, so the 100-record bound is not
enforced at the point of insertion and the size does not equal 100. -/
theorem c3_counterexample :
    ((sessionAfter 101).translation_records.getD []).length = 101
    ∧ ¬ ((sessionAfter 101).translation_records.getD []).length ≤ 100 := by
  have h : ((sessionAfter 101).translation_records.getD []).length = 101 := by rfl
  exact ⟨h, by omega⟩

/-- C3 amended: the record store is not bounded at the point of insertion
and may exceed 100 entries; the only eviction is in the rating handler,
which, after a successful rating, removes precisely the oldest-inserted
record when the store holds more than 100 entries (and removes nothing
otherwise). -/
theorem c3_store_eviction_in_rating (ud : UserData) (data : String) (uid : Nat)
    (un : Option String) (msg : String) (w : Bool) (r s t i x : String)
    (rec : TranslationRecord)
    (hsplit : pySplit data '_' = [r, s, t, i, x])
    (hfound : dictGet (ud.translation_records.getD []) i = some rec) :
    (handle_rating ud data uid un msg w).data.translation_records =
      some (storeAfterRatingCleanup (ud.translation_records.getD []))
    ∧ (∀ (k : String) (v : TranslationRecord) rest, dictPopFirst ((k, v) :: rest) = rest)
    ∧ ((ud.translation_records.getD []).length > 100 →
        ((handle_rating ud data uid un msg w).data.translation_records.getD []).length
          = (ud.translation_records.getD []).length - 1) := by
  rw [handle_rating_found_eq ud data uid un msg w r s t i x rec hsplit hfound]
  refine ⟨rfl, fun k v rest => dictPopFirst_cons k v rest, ?_⟩
  intro hlen
  rcases hd : ud.translation_records.getD [] with _ | ⟨⟨k, v⟩, rest⟩
  · rw [hd] at hfound
    simp [dictGet] at hfound
  · rw [hd] at hlen
    simp only [List.length_cons] at hlen
    simp only [Option.getD_some, hd, storeAfterRatingCleanup, List.length_cons, dictPopFirst_cons]
    rw [if_pos hlen]
    omega

/-- A store holding 101 records in insertion order under keys 0 to 100. -/
def bigStore : List (String × TranslationRecord) :=
  (List.range 101).map (fun i => (toString i, exampleRecord))

/-- A session whose record store is `bigStore`. -/
def sessionWithBigStore : UserData :=
  { state := BotState.awaiting_menu_choice, source_lang := none, target_lang := none,
    translation_history := none, translation_records := some bigStore }

/-- Witness for the amended C3: rating a record in a 101-entry store
removes the oldest-inserted entry, leaving 100. -/
theorem c3_store_eviction_witness :
    (handle_rating sessionWithBigStore "rate_good_om_0_0" 1 none "msg" true).data.translation_records
      = some (dictPopFirst bigStore)
    ∧ ((handle_rating sessionWithBigStore "rate_good_om_0_0" 1 none "msg"
        true).data.translation_records.getD []).length = 100 := by
  have h := c3_store_eviction_in_rating sessionWithBigStore "rate_good_om_0_0" 1 none "msg" true
    "rate" "good" "om" "0" "0" exampleRecord (by rfl) (by rfl)
  have hlen : (sessionWithBigStore.translation_records.getD []).length = 101 := by rfl
  have hgt : (sessionWithBigStore.translation_records.getD []).length > 100 := by omega
  refine ⟨?_, ?_⟩
  · rw [h.1]
    rfl
  · rw [h.2.2 hgt, hlen]

end Bot

namespace Bot

/-- C4 counterexample: restarting a session that already has a non-empty
history preserves that history instead of reinitializing it to the empty
list, contrary to the claim. -/
theorem c4_counterexample :
    (start { state := BotState.awaiting_text, source_lang := some "om",
             target_lang := some "en", translation_history := some [exampleEntry],
             translation_records := none }).1.translation_history = some [exampleEntry]
    ∧ some [exampleEntry] ≠ some ([] : List HistoryEntry) := by
  exact ⟨rfl, by decide⟩

/-- C4 amended: restart (the /start command, or the restart menu button from
either menu state) always sets the state to the menu state and sends the
welcome message; it initializes an empty history only when the history key
is absent, and otherwise preserves the existing history unchanged. -/
theorem c4_restart_state_and_history (ud : UserData)
    (translate : Option String → Option String → String → Except Unit String)
    (translation_id timestamp : String) :
    (start ud).1.state = BotState.awaiting_menu_choice
    ∧ (start ud).1.translation_history = some (ud.translation_history.getD [])
    ∧ (start emptySession).1.translation_history = some []
    ∧ (start ud).2 = [welcome_message]
    ∧ handle_message { ud with state := BotState.awaiting_menu_choice } MENU_RESTART
        translate translation_id timestamp
      = start { ud with state := BotState.awaiting_menu_choice }
    ∧ handle_message { ud with state := BotState.tutorial_menu_choice } MENU_RESTART
        translate translation_id timestamp
      = start { ud with state := BotState.tutorial_menu_choice } := by
  refine ⟨rfl, rfl, rfl, rfl, ?_, ?_⟩
  · simp only [handle_message, menuStep]
    rw [if_neg (by decide), if_neg (by decide), if_pos (by decide)]
  · simp only [handle_message, menuStep]
    rw [if_neg (by decide), if_neg (by decide), if_pos (by decide)]

/-- A session waiting for text with the om-to-en pair pending. -/
def awaitingSession : UserData :=
  { state := BotState.awaiting_text, source_lang := some "om", target_lang := some "en",
    translation_history := some [exampleEntry],
    translation_records := some [(exampleId, exampleRecord)] }

/-- C5: when the translator raises for a non-empty input received in a
text-capture state, the user gets exactly the generic error message followed
by the menu prompt, the state is reset to the menu state with the pending
language pair popped, and the history and record store are untouched. -/
theorem c5_translation_failure_atomic (ud : UserData) (messageText : String)
    (translate : Option String → Option String → String → Except Unit String)
    (translation_id timestamp : String)
    (hstate : ud.state = BotState.awaiting_text ∨ ud.state = BotState.tutorial_awaiting_text)
    (hne : pyStrip messageText ≠ "")
    (hfail : translate ud.source_lang ud.target_lang (pyStrip messageText) = Except.error ()) :
    handle_message ud messageText translate translation_id timestamp =
      ({ ud with state := BotState.awaiting_menu_choice, source_lang := none, target_lang := none },
       [TRANSLATION_ERROR_MSG, SELECT_OPTION_MSG]) := by
  obtain ⟨st, sl, tl, hist, recs⟩ := ud
  rcases hstate with h | h <;> cases h <;>
    simp [handle_message, textStep, tryTranslate, hne, hfail]

/-- Witness for C5: a concrete failing translation resets the session and
reports the error followed by the menu prompt. -/
theorem c5_witness :
    handle_message awaitingSession "Salaam" failTranslate "id1" "ts" =
      ({ awaitingSession with state := BotState.awaiting_menu_choice, source_lang := none, target_lang := none },
       [TRANSLATION_ERROR_MSG, SELECT_OPTION_MSG]) :=
  c5_translation_failure_atomic awaitingSession "Salaam" failTranslate "id1" "ts"
    (Or.inl rfl) (by decide) rfl

theorem length_pyLastN (n : Nat) (l : List α) :
    (pyLastN n l).length = min n l.length := by
  simp only [pyLastN, List.length_drop]
  omega

theorem pyLastN_append_pyLastN (n : Nat) (l : List α) (e : α) :
    pyLastN n (pyLastN n l ++ [e]) = pyLastN n (l ++ [e]) := by
  rcases Nat.eq_zero_or_pos n with hn | hn
  · have h1 : ∀ (x : List α), pyLastN 0 x = [] := by
      intro x
      simp [pyLastN, List.drop_length]
    subst hn
    simp [h1]
  · by_cases h : l.length ≤ n
    · have h0 : l.length - n = 0 := Nat.sub_eq_zero_of_le h
      simp [pyLastN, h0]
    · push_neg at h
      simp only [pyLastN, List.length_append, List.length_drop, List.length_cons,
        List.length_nil, List.drop_append_eq_append_drop, List.drop_drop]
      congr 1
      · congr 1
        omega
      · congr 1
        omega

/-- The history ledger of a session is always the fold of `historyAppend`
over the appended entries, starting from the empty ledger. -/
theorem foldl_historyAppend_eq (es : List HistoryEntry) :
    List.foldl historyAppend [] es = pyLastN HISTORY_LIMIT es := by
  induction es using List.reverseRecOn with
  | nil => rfl
  | append_singleton xs x ih =>
    rw [List.foldl_append, List.foldl_cons, List.foldl_nil, ih]
    exact pyLastN_append_pyLastN HISTORY_LIMIT xs x

/-- C6: for every sequence of history appends performed with the handlers'
append-then-truncate update, after each append the ledger holds at most 5
entries and equals exactly the last 5 appended entries in insertion order,
oldest first. -/
theorem c6_history_bound_and_order (es : List HistoryEntry) :
    (List.foldl historyAppend [] es).length ≤ HISTORY_LIMIT
    ∧ List.foldl historyAppend [] es = pyLastN HISTORY_LIMIT es := by
  have h := foldl_historyAppend_eq es
  refine ⟨?_, h⟩
  rw [h, length_pyLastN]
  omega

/-- C7 counterexample: the empty-text transition is not the only self-loop
in the transition table: an unrecognized input received in the menu state
also leaves the state unchanged (and the menu state is not a text-capture
state). -/
theorem c7_counterexample :
    (handle_message emptySession "not a menu option" failTranslate "id" "ts").1.state
      = emptySession.state
    ∧ emptySession.state = BotState.awaiting_menu_choice
    ∧ emptySession.state ≠ BotState.awaiting_text
    ∧ emptySession.state ≠ BotState.tutorial_awaiting_text := by
  refine ⟨rfl, rfl, by decide, by decide⟩

/-- C7 amended: from either text-capture state, empty stripped input leaves
the whole session (state, pending pair, history, record store) untouched and
emits only the non-empty-text prompt, and this is the only self-loop out of
the text-capture states because every non-empty input moves the session to
the menu state; the menu states carry further self-loops of the table. -/
theorem c7_empty_input_self_loop (ud : UserData) (messageText : String)
    (translate : Option String → Option String → String → Except Unit String)
    (translation_id timestamp : String)
    (hstate : ud.state = BotState.awaiting_text ∨ ud.state = BotState.tutorial_awaiting_text) :
    (pyStrip messageText = "" →
      handle_message ud messageText translate translation_id timestamp
        = (ud, [EMPTY_INPUT_MSG]))
    ∧ (pyStrip messageText ≠ "" →
      (handle_message ud messageText translate translation_id timestamp).1.state
          = BotState.awaiting_menu_choice
        ∧ BotState.awaiting_menu_choice ≠ ud.state) := by
  obtain ⟨st, sl, tl, hist, recs⟩ := ud
  rcases hstate with h | h <;> cases h <;>
    exact ⟨fun he => by simp [handle_message, textStep, he],
           fun hne => ⟨by simp [handle_message, textStep, hne], by simp⟩⟩

/-- Witness for C7: whitespace-only input in the text-capture state leaves
the session untouched and emits only the prompt. -/
theorem c7_witness :
    handle_message awaitingSession "   " failTranslate "id" "ts"
      = (awaitingSession, [EMPTY_INPUT_MSG]) :=
  (c7_empty_input_self_loop awaitingSession "   " failTranslate "id" "ts"
    (Or.inl rfl)).1 (by decide)

end Bot

namespace Bot

/-- C8: for a rating callback whose token parses into five fields and whose
record is found, a feedback-write failure is swallowed: no ValueError is
raised, the confirmation toast and the message edit are identical to the
successful-write outcome, the session mutation is identical, the failure is
only logged, and the sole difference is that no feedback line reaches the
sink. -/
theorem c8_feedback_write_failure_swallowed (ud : UserData) (data : String)
    (uid : Nat) (un : Option String) (msg : String) (r s t i x : String)
    (rec : TranslationRecord)
    (hsplit : pySplit data '_' = [r, s, t, i, x])
    (hfound : dictGet (ud.translation_records.getD []) i = some rec) :
    (handle_rating ud data uid un msg false).error = none
    ∧ (handle_rating ud data uid un msg false).answer
        = (handle_rating ud data uid un msg true).answer
    ∧ (handle_rating ud data uid un msg false).editedMessage
        = (handle_rating ud data uid un msg true).editedMessage
    ∧ (handle_rating ud data uid un msg false).editedMessage ≠ none
    ∧ (handle_rating ud data uid un msg false).data
        = (handle_rating ud data uid un msg true).data
    ∧ (handle_rating ud data uid un msg false).feedbackWritten = none
    ∧ (handle_rating ud data uid un msg false).writeFailureLogged = true
    ∧ (handle_rating ud data uid un msg true).feedbackWritten
        = some (feedbackLine un uid r s t rec) := by
  rw [handle_rating_found_eq ud data uid un msg false r s t i x rec hsplit hfound,
      handle_rating_found_eq ud data uid un msg true r s t i x rec hsplit hfound]
  exact ⟨rfl, rfl, rfl, by simp, rfl, rfl, rfl, rfl⟩

/-- Witness for C8: on a concrete session and token, the failed-write run
still succeeds with the same toast as the successful-write run and records
nothing in the sink. -/
theorem c8_witness :
    (handle_rating sessionWithExampleRecord
        "rate_good_om_3fa85f64-5717-4562-b3fc-2c963f66afa6_0" 1 none "msg" false).error = none
    ∧ (handle_rating sessionWithExampleRecord
        "rate_good_om_3fa85f64-5717-4562-b3fc-2c963f66afa6_0" 1 none "msg" false).feedbackWritten = none
    ∧ (handle_rating sessionWithExampleRecord
        "rate_good_om_3fa85f64-5717-4562-b3fc-2c963f66afa6_0" 1 none "msg" false).answer
      = (handle_rating sessionWithExampleRecord
        "rate_good_om_3fa85f64-5717-4562-b3fc-2c963f66afa6_0" 1 none "msg" true).answer := by
  have h := c8_feedback_write_failure_swallowed sessionWithExampleRecord
    "rate_good_om_3fa85f64-5717-4562-b3fc-2c963f66afa6_0" 1 none "msg"
    "rate" "good" "om" exampleId "0" exampleRecord (by rfl) (by rfl)
  exact ⟨h.1, h.2.2.2.2.2.1, h.2.1⟩

/-- C9 counterexample: with 101 stored records, rating the oldest-inserted
record succeeds but the cleanup evicts that very record (not an unrelated
one), so a second press of the same button fails with record-not-found. -/
theorem c9_counterexample :
    dictGet bigStore "0" = some exampleRecord
    ∧ (handle_rating sessionWithBigStore "rate_good_om_0_0" 1 none "msg" true).error = none
    ∧ dictGet ((handle_rating sessionWithBigStore "rate_good_om_0_0" 1 none "msg"
        true).data.translation_records.getD []) "0" = none
    ∧ (handle_rating (handle_rating sessionWithBigStore "rate_good_om_0_0" 1 none "msg"
        true).data "rate_good_om_0_0" 1 none "msg" true).error
      = some RatingError.recordNotFound := by
  exact ⟨rfl, rfl, by rfl, by rfl⟩

/-- C9 amended: a successful rating leaves the rated record in the store
whenever the store holds at most 100 entries or the rated record is not the
oldest-inserted one; in the remaining case (a store over 100 entries whose
oldest record is the rated one) the cleanup evicts the rated record
itself. -/
theorem c9_rating_keeps_record_unless_oldest (ud : UserData) (data : String)
    (uid : Nat) (un : Option String) (msg : String) (w : Bool) (r s t i x : String)
    (rec : TranslationRecord)
    (hsplit : pySplit data '_' = [r, s, t, i, x])
    (hfound : dictGet (ud.translation_records.getD []) i = some rec)
    (hkeep : (ud.translation_records.getD []).length ≤ 100
      ∨ ∀ v, (ud.translation_records.getD []).head? ≠ some (i, v)) :
    dictGet ((handle_rating ud data uid un msg w).data.translation_records.getD []) i
      = some rec
    ∧ (handle_rating ud data uid un msg w).error = none := by
  rw [handle_rating_found_eq ud data uid un msg w r s t i x rec hsplit hfound]
  refine ⟨?_, rfl⟩
  simp only [Option.getD_some, storeAfterRatingCleanup]
  by_cases hlen : (ud.translation_records.getD []).length > 100
  · rw [if_pos hlen]
    rcases hkeep with hle | hhead
    · omega
    · rcases hd : ud.translation_records.getD [] with _ | ⟨⟨k, v⟩, rest⟩
      · rw [hd] at hfound
        simp [dictGet] at hfound
      · rw [hd] at hfound hhead
        simp only [List.head?_cons] at hhead
        have hk : ¬ (k = i) := by
          intro hki
          subst hki
          exact hhead v rfl
        rw [dictPopFirst_cons]
        rw [dictGet, if_neg hk] at hfound
        exact hfound
  · rw [if_neg hlen]
    exact hfound

/-- Witness for the amended C9: rating the sole record of a small store
leaves it in place and the rating succeeds. -/
theorem c9_witness :
    dictGet ((handle_rating sessionWithExampleRecord
        "rate_poor_en_3fa85f64-5717-4562-b3fc-2c963f66afa6_0" 1 none "msg"
        true).data.translation_records.getD []) exampleId = some exampleRecord
    ∧ (handle_rating sessionWithExampleRecord
        "rate_poor_en_3fa85f64-5717-4562-b3fc-2c963f66afa6_0" 1 none "msg" true).error = none :=
  c9_rating_keeps_record_unless_oldest sessionWithExampleRecord
    "rate_poor_en_3fa85f64-5717-4562-b3fc-2c963f66afa6_0" 1 none "msg" true
    "rate" "poor" "en" exampleId "0" exampleRecord (by rfl) (by rfl)
    (Or.inl (by decide))

theorem dictGet_append_single [DecidableEq κ] (d : List (κ × β)) (k k2 : κ) (v : β)
    (h : k2 ≠ k) : dictGet (d ++ [(k, v)]) k2 = dictGet d k2 := by
  induction d with
  | nil =>
    simp only [List.nil_append, dictGet]
    rw [if_neg (fun hh => h hh.symm)]
  | cons p rest ih =>
    rcases p with ⟨pk, pv⟩
    simp only [List.cons_append, dictGet]
    by_cases hpk : pk = k2
    · rw [if_pos hpk, if_pos hpk]
    · rw [if_neg hpk, if_neg hpk]
      exact ih

theorem dictGet_mapUpdate_ne [DecidableEq κ] (d : List (κ × β)) (k k2 : κ) (v : β)
    (h : k2 ≠ k) :
    dictGet (d.map (fun p => if p.1 = k then (k, v) else p)) k2 = dictGet d k2 := by
  induction d with
  | nil => rfl
  | cons p rest ih =>
    rcases p with ⟨pk, pv⟩
    simp only [List.map_cons]
    by_cases hpk : pk = k
    · rw [if_pos (by simpa using hpk)]
      rw [dictGet, dictGet, if_neg (fun hh => h hh.symm), hpk, if_neg (fun hh => h hh.symm)]
      exact ih
    · rw [if_neg (by simpa using hpk)]
      rw [dictGet, dictGet]
      by_cases hpk2 : pk = k2
      · rw [if_pos hpk2, if_pos hpk2]
      · rw [if_neg hpk2, if_neg hpk2]
        exact ih

theorem dictGet_dictInsert_ne [DecidableEq κ] (d : List (κ × β)) (k k2 : κ) (v : β)
    (h : k2 ≠ k) : dictGet (dictInsert d k v) k2 = dictGet d k2 := by
  unfold dictInsert
  rcases hg : dictGet d k with _ | w
  · exact dictGet_append_single d k k2 v h
  · exact dictGet_mapUpdate_ne d k k2 v h

theorem length_dictInsert_of_get_none [DecidableEq κ] (d : List (κ × β)) (k : κ) (v : β)
    (h : dictGet d k = none) : (dictInsert d k v).length = d.length + 1 := by
  unfold dictInsert
  rw [h]
  simp

end Bot

namespace Bot

/-- C10: a non-empty inline query for which both translation directions
succeed appends exactly two entries to the session history — the om-to-en
entry first, then the en-to-om entry, through the same bounded
append-then-truncate update as the menu flow — inserts exactly two fresh
records into the same per-session record store, and answers the query; an
empty or whitespace-only query returns without mutating the session and
without answering. -/
theorem c10_inline_query_effects (ud : UserData) (rawQuery : String)
    (translate : Option String → Option String → String → Except Unit String)
    (id_om id_en timestamp t1 t2 : String)
    (hne : pyStrip rawQuery ≠ "")
    (h1 : translate (some "om") (some "en") (pyStrip rawQuery) = Except.ok t1)
    (h2 : translate (some "en") (some "om") (pyStrip rawQuery) = Except.ok t2)
    (hf1 : dictGet (ud.translation_records.getD []) id_om = none)
    (hf2 : dictGet (ud.translation_records.getD []) id_en = none)
    (hdiff : id_en ≠ id_om) :
    (inline_query ud rawQuery translate id_om id_en timestamp).2 = true
    ∧ (inline_query ud rawQuery translate id_om id_en timestamp).1.translation_history
      = some (historyAppend
          (historyAppend (ud.translation_history.getD [])
            { source_lang := "om", target_lang := "en", original_text := pyStrip rawQuery,
              translated_text := t1, timestamp := timestamp })
          { source_lang := "en", target_lang := "om", original_text := pyStrip rawQuery,
            translated_text := t2, timestamp := timestamp })
    ∧ (inline_query ud rawQuery translate id_om id_en timestamp).1.translation_records
      = some (dictInsert
          (dictInsert (ud.translation_records.getD []) id_om
            { original_text := pyStrip rawQuery, translated_text := t1,
              source_lang := "om", target_lang := "en" })
          id_en
          { original_text := pyStrip rawQuery, translated_text := t2,
            source_lang := "en", target_lang := "om" })
    ∧ ((inline_query ud rawQuery translate id_om id_en timestamp).1.translation_records.getD
        []).length = (ud.translation_records.getD []).length + 2
    ∧ ((inline_query ud rawQuery translate id_om id_en timestamp).1.translation_history.getD
        []).length ≤ HISTORY_LIMIT
    ∧ (∀ q2, pyStrip q2 = "" →
        inline_query ud q2 translate id_om id_en timestamp = (ud, false)) := by
  have key : inline_query ud rawQuery translate id_om id_en timestamp =
      ({ ud with
          translation_history := some (pyLastN HISTORY_LIMIT
            (ud.translation_history.getD [] ++
              [{ source_lang := "om", target_lang := "en", original_text := pyStrip rawQuery,
                 translated_text := t1, timestamp := timestamp },
               { source_lang := "en", target_lang := "om", original_text := pyStrip rawQuery,
                 translated_text := t2, timestamp := timestamp }]))
          translation_records := some (dictInsert
            (dictInsert (ud.translation_records.getD []) id_om
              { original_text := pyStrip rawQuery, translated_text := t1,
                source_lang := "om", target_lang := "en" })
            id_en
            { original_text := pyStrip rawQuery, translated_text := t2,
              source_lang := "en", target_lang := "om" }) },
       true) := by
    simp only [inline_query, if_neg hne, h1, h2]
  have hist2 : pyLastN HISTORY_LIMIT
      (ud.translation_history.getD [] ++
        [{ source_lang := "om", target_lang := "en", original_text := pyStrip rawQuery,
           translated_text := t1, timestamp := timestamp },
         { source_lang := "en", target_lang := "om", original_text := pyStrip rawQuery,
           translated_text := t2, timestamp := timestamp }]) =
      historyAppend
        (historyAppend (ud.translation_history.getD [])
          { source_lang := "om", target_lang := "en", original_text := pyStrip rawQuery,
            translated_text := t1, timestamp := timestamp })
        { source_lang := "en", target_lang := "om", original_text := pyStrip rawQuery,
          translated_text := t2, timestamp := timestamp } := by
    rw [historyAppend, historyAppend, pyLastN_append_pyLastN, List.append_assoc]
    rfl
  have hfresh : dictGet (dictInsert (ud.translation_records.getD []) id_om
      { original_text := pyStrip rawQuery, translated_text := t1,
        source_lang := "om", target_lang := "en" }) id_en = none := by
    rw [dictGet_dictInsert_ne _ _ _ _ hdiff]
    exact hf2
  refine ⟨by rw [key], ?_, by rw [key], ?_, ?_, ?_⟩
  · rw [key]
    simp only [hist2]
  · rw [key]
    simp only [Option.getD_some]
    rw [length_dictInsert_of_get_none _ _ _ hfresh,
        length_dictInsert_of_get_none _ _ _ hf1]
  · rw [key]
    simp only [Option.getD_some]
    rw [length_pyLastN]
    omega
  · intro q2 hq2
    simp only [inline_query, if_pos hq2]

/-- Witness for C10: a concrete non-empty inline query answers the query
and grows an empty record store to exactly two records, while a
whitespace-only query leaves the session untouched and unanswered. -/
theorem c10_witness :
    (inline_query emptySession "Salaam" okTranslate "ida" "idb" "ts").2 = true
    ∧ ((inline_query emptySession "Salaam" okTranslate "ida" "idb"
        "ts").1.translation_records.getD []).length = 2
    ∧ inline_query emptySession " " okTranslate "ida" "idb" "ts" = (emptySession, false) := by
  have h := c10_inline_query_effects emptySession "Salaam" okTranslate "ida" "idb" "ts"
    "Salaam" "Salaam" (by decide) rfl rfl rfl rfl (by decide)
  refine ⟨h.1, ?_, h.2.2.2.2.2 " " (by decide)⟩
  rw [h.2.2.2.1]
  rfl

end Bot
